import Mathlib

/-!
Shallow embedding of the Phantom wallet integration layer of this repository:
the module-level wallet functions (`getPhantomProvider`, `connectPhantomWallet`,
`disconnectPhantomWallet`, `addTokenToPhantomWallet`,
`setupPhantomEventListeners`, `isPhantomConnected`, `getConnectedPublicKey`
from the phantom wallet module) and the `PhantomWalletAdapter` class from
`src/walletIntegration.ts`.

The injected provider object is an external collaborator (it is not
implemented in this repository); its observable surface is modelled from the
spec's description of the Injected Provider API: `connect()`, `disconnect()`,
`request({method, params})`, `on(event, callback)`,
`removeListener(event, callback)`, and the properties `isConnected` and
`publicKey`.  The outcome of each asynchronous provider call is a field of the
`Provider` record, so a single `Provider` value fixes one possible behaviour
of the extension.  JavaScript `async` functions are embedded as pure functions
returning `Except JsError _` (a rejected promise / thrown error is the
`.error` case); observable side effects beyond the return value (opened
browser tabs, issued `wallet_watchAsset` provider requests) are gathered in an
`Effects` record.  Console logging (`debugLog` / `console.log`) is ignored, as
it changes no program-visible state.
-/

namespace Phantom

/-- A JavaScript error surfaced by a wallet operation: either an `Error`
thrown by this repository's code, identified by its message string, or an
error raised by the injected provider and propagated unchanged (carrying the
provider's rejection code and message). -/
inductive JsError where
  | thrown (msg : String)
  | provider (code : Nat) (msg : String)
deriving DecidableEq, Repr

/-- The injected provider object.  Modelled from the spec: the Injected
Provider API is an external collaborator, not implemented in this repository.
`isPhantom`, `isConnected` and `publicKey` are its synchronous properties
(`publicKey` holds the `toString` image of the provider's key object, `none`
when the property is null); `connectResult`, `disconnectResult` and
`watchAssetResult` give the value each asynchronous call resolves with, or
the rejection (code, message) it fails with. -/
structure Provider where
  isPhantom : Bool
  isConnected : Bool
  publicKey : Option String
  connectResult : Except (Nat × String) String
  disconnectResult : Except (Nat × String) Unit
  watchAssetResult : String → Except (Nat × String) Unit

/-- The object stored under the `phantom` key of the global context:
`window.phantom`, whose `solana` field may be absent. -/
structure PhantomNS where
  solana : Option Provider

/-- The global browsing context.  `phantomProp = none` models the key
`phantom` being absent from `window` (so that the expression
`'phantom' in window` is false); `phantomProp = some v` models the key being
present with value `v`, where `v = none` is an undefined value.  `solana` is
the value of `window.solana` (`none` when undefined). -/
structure Window where
  phantomProp : Option (Option PhantomNS)
  solana : Option Provider

/-- The value the expression `window.phantom` reads: undefined both when the
key is absent and when it is present holding undefined. -/
def Window.phantomVal (w : Window) : Option PhantomNS :=
  w.phantomProp.getD none

/-- Observable side effects of one wallet-module call: `openedUrls` records
each `window.open(url, target)` performed, `watchAssetRequests` records the
token address of each `wallet_watchAsset` request issued to the provider. -/
structure Effects where
  openedUrls : List (String × String)
  watchAssetRequests : List (String)
deriving DecidableEq, Repr

/-- The empty effect record: no tab opened, no provider request issued. -/
def noEffects : Effects := ⟨[], []⟩

/-- `getPhantomProvider` from the phantom wallet module: when the global
`window` is defined (`w = some _`) and `window.phantom?.solana` is present,
return it; otherwise return null.  The argument is `none` when the global
`window` is undefined (the module guards with `typeof window`). -/
def getPhantomProvider (w : Option Window) : Option Provider :=
  match w with
  | none => none
  | some w => w.phantomVal.bind PhantomNS.solana

/-- `isPhantomInstalled` from the phantom wallet module:
`window?.phantom?.solana?.isPhantom || false`. -/
def isPhantomInstalled (w : Option Window) : Bool :=
  match w with
  | none => false
  | some w =>
    match w.phantomVal.bind PhantomNS.solana with
    | some p => p.isPhantom
    | none => false

/-- `connectPhantomWallet`: when the locator finds no provider, it opens the
Phantom installation page in a new tab and throws the not-installed error;
otherwise it awaits `provider.connect()` and returns
`response.publicKey.toString()`, propagating a rejection unchanged.  The
no-provider branch dereferences `window.open` unconditionally, so the
function is embedded over a defined `Window` (a browsing context). -/
def connectPhantomWallet (w : Window) : Except JsError String × Effects :=
  match getPhantomProvider (some w) with
  | none =>
    (.error (.thrown "Phantom wallet not installed. Please install it from phantom.app"),
     ⟨[("https://phantom.app/", "_blank")], []⟩)
  | some p =>
    match p.connectResult with
    | .ok pk => (.ok pk, noEffects)
    | .error e => (.error (.provider e.1 e.2), noEffects)

/-- `disconnectPhantomWallet`: when a provider is present it awaits
`provider.disconnect()`, rethrowing a rejection; with no provider it returns
without error. -/
def disconnectPhantomWallet (w : Option Window) : Except JsError Unit :=
  match getPhantomProvider w with
  | none => .ok ()
  | some p =>
    match p.disconnectResult with
    | .ok _ => .ok ()
    | .error e => .error (.provider e.1 e.2)

/-- `addTokenToPhantomWallet`: throws the not-installed error when no
provider is present; otherwise it issues the `wallet_watchAsset` request for
the given token address, propagating a provider rejection.  Note the source
checks only provider presence, not connection state. -/
def addTokenToPhantomWallet (w : Option Window) (tokenAddress : String) :
    Except JsError Unit × Effects :=
  match getPhantomProvider w with
  | none => (.error (.thrown "Phantom wallet not installed"), noEffects)
  | some p =>
    match p.watchAssetResult tokenAddress with
    | .ok _ => (.ok (), ⟨[], [tokenAddress]⟩)
    | .error e => (.error (.provider e.1 e.2), ⟨[], [tokenAddress]⟩)

/-- `isPhantomConnected`: `provider?.isConnected || false`. -/
def isPhantomConnected (w : Option Window) : Bool :=
  match getPhantomProvider w with
  | none => false
  | some p => p.isConnected

/-- `getConnectedPublicKey`: `provider?.publicKey?.toString() || null`.  The
JavaScript `|| null` coerces a falsy value — in particular the empty string —
to null, which the embedding reproduces. -/
def getConnectedPublicKey (w : Option Window) : Option String :=
  match getPhantomProvider w with
  | none => none
  | some p =>
    match p.publicKey with
    | some s => if s = "" then none else some s
    | none => none

/-- The three provider event names the module subscribes to. -/
inductive EventName where
  | connect
  | disconnect
  | accountChanged
deriving BEq, DecidableEq, Repr

/-- The provider's listener table: the sequence of registrations, each an
event name paired with the identity of the subscribed callback (callbacks are
identified by a number).  Modelled from the spec: the provider's
`on`/`removeListener` registry is part of the external Injected Provider
API. -/
abbrev ListenerState := List (EventName × Nat)

/-- `provider.on(event, callback)`: appends a registration.  Modelled from
the spec's Injected Provider API. -/
def providerOn (ev : EventName) (cb : Nat) (ls : ListenerState) : ListenerState :=
  ls ++ [(ev, cb)]

/-- `provider.removeListener(event, callback)`: removes the registrations of
that callback for that event.  Modelled from the spec's Injected Provider
API. -/
def removeListenerOf (ev : EventName) (cb : Nat) (ls : ListenerState) : ListenerState :=
  List.filter (fun r => !(decide (r.1 = ev) && decide (r.2 = cb))) ls

/-- The callbacks object accepted by `setupPhantomEventListeners`: each of
the three fields may be absent. -/
structure Callbacks where
  onConnect : Option Nat
  onDisconnect : Option Nat
  onAccountChange : Option Nat
deriving DecidableEq, Repr

/-- One conditional subscription step of `setupPhantomEventListeners`: the
source guards each `provider.on(event, callback)` call on the callback being
present in the callbacks object. -/
def registerIf (o : Option Nat) (ev : EventName) (ls : ListenerState) : ListenerState :=
  match o with
  | some c => providerOn ev c ls
  | none => ls

/-- One conditional unsubscription step of the teardown closure returned by
`setupPhantomEventListeners`: each `provider.removeListener(event, callback)`
call is guarded on the callback being present. -/
def removeIf (o : Option Nat) (ev : EventName) (s : ListenerState) : ListenerState :=
  match o with
  | some c => removeListenerOf ev c s
  | none => s

/-- `setupPhantomEventListeners`: with no provider it registers nothing and
returns a no-op teardown; otherwise it registers each present callback
(`onConnect` on `connect`, then `onDisconnect` on `disconnect`, then
`onAccountChange` on `accountChanged`) and returns the teardown closure that
removes each present callback from the corresponding event in the same
order.  The result is the provider's listener table after subscription,
paired with the teardown as a function on listener tables. -/
def setupPhantomEventListeners (w : Option Window) (cbs : Callbacks)
    (ls : ListenerState) : ListenerState × (ListenerState → ListenerState) :=
  match getPhantomProvider w with
  | none => (ls, fun s => s)
  | some _ =>
    (registerIf cbs.onAccountChange .accountChanged
      (registerIf cbs.onDisconnect .disconnect
        (registerIf cbs.onConnect .connect ls)),
     fun s =>
      removeIf cbs.onAccountChange .accountChanged
        (removeIf cbs.onDisconnect .disconnect
          (removeIf cbs.onConnect .connect s)))

/-- The callbacks the provider invokes when it emits event `ev`: those
registered for `ev`, in registration order.  Modelled from the spec's
Injected Provider API. -/
def fireEvent (ls : ListenerState) (ev : EventName) : List Nat :=
  (List.filter (fun r => decide (r.1 = ev)) ls).map Prod.snd

/-- The callbacks invoked over a whole sequence of emitted events (event
emission does not change the listener table). -/
def fireAll (ls : ListenerState) : List EventName → List Nat
  | [] => []
  | ev :: evs => fireEvent ls ev ++ fireAll ls evs

/-- Whether registration `r` is one the conditional subscription step for
callback slot `o` on event `ev` would add — equivalently, one the matching
teardown step removes. -/
def tornBy (o : Option Nat) (ev : EventName) (r : EventName × Nat) : Bool :=
  match o with
  | some c => decide (r.1 = ev) && decide (r.2 = c)
  | none => false

/-- The registrations surviving the teardown closure of
`setupPhantomEventListeners` for callbacks object `cbs`: those matched by
none of its three removal steps. -/
def keepAfterTeardown (cbs : Callbacks) (r : EventName × Nat) : Bool :=
  !tornBy cbs.onAccountChange .accountChanged r &&
  (!tornBy cbs.onDisconnect .disconnect r && !tornBy cbs.onConnect .connect r)

/-- Whether callback identity `c` is one of the callbacks carried by the
callbacks object `cbs`. -/
def Callbacks.owns (cbs : Callbacks) (c : Nat) : Bool :=
  decide (cbs.onConnect = some c) || decide (cbs.onDisconnect = some c) ||
  decide (cbs.onAccountChange = some c)

/-- The mutable fields of the `PhantomWalletAdapter` class from
`src/walletIntegration.ts`: `_publicKey` (the `toString` image of the stored
key object, `none` when null) and `_connected`. -/
structure AdapterState where
  publicKey : Option String
  connected : Bool
deriving DecidableEq, Repr

/-- The adapter state produced by the constructor's field initialisers:
`_publicKey = null`, `_connected = false`. -/
def AdapterState.init : AdapterState := ⟨none, false⟩

namespace PhantomWalletAdapter

/-- `PhantomWalletAdapter._getProvider`: if the key `phantom` is present in
`window`, return `window.phantom?.solana` (without falling through); else if
`window.solana?.isPhantom`, return `window.solana`; else null.  The
expression `'phantom' in window` dereferences the global `window`, so the
method is embedded over a defined `Window`. -/
def _getProvider (w : Window) : Option Provider :=
  if w.phantomProp.isSome then
    w.phantomVal.bind PhantomNS.solana
  else
    match w.solana with
    | some p => if p.isPhantom then some p else none
    | none => none

/-- `PhantomWalletAdapter._handleDisconnect` on the adapter fields: clears
the stored key and the connected flag (the registered `_onDisconnect` UI
callback changes no adapter field). -/
def _handleDisconnect (_s : AdapterState) : AdapterState := ⟨none, false⟩

/-- The `accountChanged` handler registered by
`PhantomWalletAdapter._registerEvents`: a non-null key overwrites
`_publicKey` (leaving `_connected` untouched); a null key is treated as a
disconnection. -/
def _handleAccountChanged (pk : Option String) (s : AdapterState) : AdapterState :=
  match pk with
  | some k => { s with publicKey := some k }
  | none => _handleDisconnect s

/-- The `disconnect` handler registered by
`PhantomWalletAdapter._registerEvents`: delegates to `_handleDisconnect`. -/
def _handleDisconnectEvent (s : AdapterState) : AdapterState :=
  _handleDisconnect s

/-- `PhantomWalletAdapter._checkConnection` (run on the window `load`
event): when a provider is present and reports `isConnected`, copy its
`publicKey` and mark the adapter connected; otherwise change nothing. -/
def _checkConnection (w : Window) (s : AdapterState) : AdapterState :=
  match _getProvider w with
  | some p => if p.isConnected then ⟨p.publicKey, true⟩ else s
  | none => s

/-- `PhantomWalletAdapter.connect`: throws the not-installed error when no
provider is present; otherwise awaits `provider.connect()`; on success stores
the reported key, sets `_connected`, and returns the key; a rejection is
rethrown with the fields untouched. -/
def connect (w : Window) (s : AdapterState) : Except JsError String × AdapterState :=
  match _getProvider w with
  | none =>
    (.error (.thrown "Phantom wallet not installed. Please install Phantom wallet extension."), s)
  | some p =>
    match p.connectResult with
    | .ok pk => (.ok pk, ⟨some pk, true⟩)
    | .error e => (.error (.provider e.1 e.2), s)

/-- `PhantomWalletAdapter.disconnect`: with no provider it returns leaving
the fields untouched; otherwise it awaits `provider.disconnect()` and on
success runs `_handleDisconnect`; a provider rejection is rethrown with the
fields untouched. -/
def disconnect (w : Window) (s : AdapterState) : Except JsError Unit × AdapterState :=
  match _getProvider w with
  | none => (.ok (), s)
  | some p =>
    match p.disconnectResult with
    | .ok _ => (.ok (), _handleDisconnect s)
    | .error e => (.error (.provider e.1 e.2), s)

/-- `PhantomWalletAdapter.addToken`: throws the wallet-not-connected error
when no provider is present or `_connected` is false, issuing no provider
request; otherwise it issues the `wallet_watchAsset` request for the token
address, returning true on success and rethrowing a provider rejection. -/
def addToken (w : Window) (s : AdapterState) (tokenAddress : String) :
    Except JsError Bool × Effects :=
  match _getProvider w with
  | none => (.error (.thrown "Wallet not connected"), noEffects)
  | some p =>
    if s.connected then
      match p.watchAssetResult tokenAddress with
      | .ok _ => (.ok true, ⟨[], [tokenAddress]⟩)
      | .error e => (.error (.provider e.1 e.2), ⟨[], [tokenAddress]⟩)
    else (.error (.thrown "Wallet not connected"), noEffects)

end PhantomWalletAdapter

/-- The data-model invariant stated by the spec: the stored account
identifier is non-null only when the state is connected. -/
def stateInv (s : AdapterState) : Bool :=
  !s.publicKey.isSome || s.connected

/-- Modelled from the spec: the injected provider is an external
collaborator exposing `isConnected` and `publicKey`; after its `connect()`
call resolves, it reports the session it resolved — `isConnected` is set and
`publicKey` is the identifier `connect` returned ("`currentAccount()`
returns the same identifier the provider reported").  A provider whose
`connect` rejects is unchanged. -/
def Provider.afterConnect (p : Provider) : Provider :=
  match p.connectResult with
  | .ok pk => { p with isConnected := true, publicKey := some pk }
  | .error _ => p

/-- A provider with no active session whose calls all succeed and whose
connect approval resolves with the account identifier Addr123. -/
def okProvider : Provider where
  isPhantom := true
  isConnected := false
  publicKey := none
  connectResult := .ok "Addr123"
  disconnectResult := .ok ()
  watchAssetResult := fun _ => .ok ()

/-- A browsing context carrying `okProvider` at `window.phantom.solana`. -/
def phantomWindow : Window := ⟨some (some ⟨some okProvider⟩), none⟩

/-- A browsing context with no injected object at all. -/
def emptyWindow : Window := ⟨none, none⟩

/-- A provider whose connect approval the user rejects with the standard
code 4001. -/
def rejectingProvider : Provider :=
  { okProvider with connectResult := .error (4001, "User rejected the request.") }

/-- A browsing context carrying `rejectingProvider`. -/
def rejectWindow : Window := ⟨some (some ⟨some rejectingProvider⟩), none⟩

/-- An injected object at `window.phantom.solana` whose `isPhantom` presence
flag is not set. -/
def notPhantomProvider : Provider := { okProvider with isPhantom := false }

/-- A browsing context carrying `notPhantomProvider` at
`window.phantom.solana`. -/
def spoofWindow : Window := ⟨some (some ⟨some notPhantomProvider⟩), none⟩

/-- A browsing context whose provider is `okProvider` after its connect call
resolved. -/
def connectedWindow : Window := ⟨some (some ⟨some okProvider.afterConnect⟩), none⟩

/-- A provider with no active session whose `disconnect()` call rejects. -/
def rejectingDisconnectProvider : Provider :=
  { okProvider with disconnectResult := .error (4900, "Provider disconnect failed") }

/-- A browsing context carrying `rejectingDisconnectProvider`. -/
def rejectingDisconnectWindow : Window :=
  ⟨some (some ⟨some rejectingDisconnectProvider⟩), none⟩

/-- C3: in every browsing context with no injected provider, the synchronous
connection check returns false, and both connect operations fail with their
wallet-unavailable (not-installed) error instead of returning an account
identifier. -/
theorem no_provider_checks_and_connect_fail (w : Window)
    (h1 : getPhantomProvider (some w) = none)
    (h2 : PhantomWalletAdapter._getProvider w = none) :
    isPhantomConnected (some w) = false ∧
    (connectPhantomWallet w).1 =
      .error (.thrown "Phantom wallet not installed. Please install it from phantom.app") ∧
    ∀ s : AdapterState,
      (PhantomWalletAdapter.connect w s).1 =
        .error (.thrown "Phantom wallet not installed. Please install Phantom wallet extension.") := by
  refine ⟨?_, ?_, fun s => ?_⟩ <;>
    simp [isPhantomConnected, connectPhantomWallet, PhantomWalletAdapter.connect, h1, h2]

/-- Witness for C3 at the concrete browsing context with nothing injected. -/
theorem no_provider_checks_and_connect_fail_witness :
    isPhantomConnected (some emptyWindow) = false ∧
    (connectPhantomWallet emptyWindow).1 =
      .error (.thrown "Phantom wallet not installed. Please install it from phantom.app") :=
  ⟨(no_provider_checks_and_connect_fail emptyWindow rfl rfl).1,
   (no_provider_checks_and_connect_fail emptyWindow rfl rfl).2.1⟩

/-- C4: whenever the adapter's connect throws — provider absent or the
approval rejected — the adapter fields are exactly what they were before the
call. -/
theorem connect_failure_preserves_state (w : Window) (s : AdapterState) (e : JsError)
    (h : (PhantomWalletAdapter.connect w s).1 = .error e) :
    (PhantomWalletAdapter.connect w s).2 = s := by
  unfold PhantomWalletAdapter.connect at *
  cases hp : PhantomWalletAdapter._getProvider w with
  | none => simp [hp]
  | some p =>
    cases hc : p.connectResult with
    | ok pk => rw [hp] at h; simp [hc] at h
    | error e2 => simp [hp, hc]

/-- Witness for C4: a user-rejected approval leaves a nontrivial prior
adapter state untouched. -/
theorem connect_failure_preserves_state_witness :
    (PhantomWalletAdapter.connect rejectWindow ⟨some "Prev", true⟩).2 =
      ⟨some "Prev", true⟩ :=
  connect_failure_preserves_state rejectWindow ⟨some "Prev", true⟩
    (.provider 4001 "User rejected the request.") rfl

/-- C10: with no provider found, `connectPhantomWallet` opens the Phantom
installation page in a new tab and then throws the not-installed error. -/
theorem connect_opens_install_page (w : Window)
    (h : getPhantomProvider (some w) = none) :
    (connectPhantomWallet w).2.openedUrls = [("https://phantom.app/", "_blank")] ∧
    (connectPhantomWallet w).1 =
      .error (.thrown "Phantom wallet not installed. Please install it from phantom.app") := by
  simp [connectPhantomWallet, h]

/-- Witness for C10 at the concrete browsing context with nothing
injected. -/
theorem connect_opens_install_page_witness :
    (connectPhantomWallet emptyWindow).2.openedUrls =
      [("https://phantom.app/", "_blank")] :=
  (connect_opens_install_page emptyWindow rfl).1

/-- C1 counterexample: with a provider present but no active session
(`isConnected` false, no prior connect), `addTokenToPhantomWallet` does not
fail with a not-connected error — it issues the `wallet_watchAsset` provider
request and succeeds. -/
theorem addTokenToPhantomWallet_requests_without_session :
    isPhantomConnected (some phantomWindow) = false ∧
    (addTokenToPhantomWallet (some phantomWindow) "Mint1").1 = .ok () ∧
    (addTokenToPhantomWallet (some phantomWindow) "Mint1").2.watchAssetRequests =
      ["Mint1"] :=
  ⟨rfl, rfl, rfl⟩

/-- C1 amended: the adapter's `addToken` fails with the wallet-not-connected
error, issuing no provider request, whenever no session is active (also when
no provider is present); the module-level `addTokenToPhantomWallet` checks
only provider presence — it fails with the not-installed error when no
provider is present and it issues the `wallet_watchAsset` request whenever a
provider is present, connected or not. -/
theorem addToken_session_gating (w : Window) (w2 : Option Window)
    (s : AdapterState) (a : String) (hs : s.connected = false) :
    (PhantomWalletAdapter.addToken w s a).1 = .error (.thrown "Wallet not connected") ∧
    (PhantomWalletAdapter.addToken w s a).2.watchAssetRequests = [] ∧
    (getPhantomProvider w2 = none →
      (addTokenToPhantomWallet w2 a).1 = .error (.thrown "Phantom wallet not installed") ∧
      (addTokenToPhantomWallet w2 a).2.watchAssetRequests = []) ∧
    (∀ p : Provider, getPhantomProvider w2 = some p →
      (addTokenToPhantomWallet w2 a).2.watchAssetRequests = [a]) := by
  refine ⟨?_, ?_, ?_, ?_⟩
  · cases hp : PhantomWalletAdapter._getProvider w <;>
      simp [PhantomWalletAdapter.addToken, hp, hs, noEffects]
  · cases hp : PhantomWalletAdapter._getProvider w <;>
      simp [PhantomWalletAdapter.addToken, hp, hs, noEffects]
  · intro h
    simp [addTokenToPhantomWallet, h, noEffects]
  · intro p hp
    cases hr : p.watchAssetResult a <;>
      simp [addTokenToPhantomWallet, hp, hr]

/-- Witness for C1's amended statement: the adapter refuses the call in its
initial (disconnected) state while the module-level helper issues the
request on the same unconnected provider. -/
theorem addToken_session_gating_witness :
    (PhantomWalletAdapter.addToken phantomWindow AdapterState.init "Mint2").1 =
      .error (.thrown "Wallet not connected") ∧
    (addTokenToPhantomWallet (some phantomWindow) "Mint2").2.watchAssetRequests =
      ["Mint2"] :=
  ⟨(addToken_session_gating phantomWindow (some phantomWindow) AdapterState.init
      "Mint2" rfl).1,
   (addToken_session_gating phantomWindow (some phantomWindow) AdapterState.init
      "Mint2" rfl).2.2.2 okProvider rfl⟩

/-- C2 counterexample: the `accountChanged` handler applied to the initial
(disconnected) adapter state with a non-null key stores the key without
setting the connected flag, violating the invariant that the account
identifier is non-null only when connected. -/
theorem accountChanged_breaks_invariant :
    stateInv AdapterState.init = true ∧
    stateInv (PhantomWalletAdapter._handleAccountChanged (some "Addr123")
      AdapterState.init) = false :=
  ⟨rfl, rfl⟩

/-- C2 amended: every adapter operation and provider-event handler preserves
the invariant, except the `accountChanged` handler with a non-null key,
which preserves it only from connected states (it overwrites the stored key
without touching the connected flag); and the scenario holds: connect with
account Addr123 moves the initial state to connected with Addr123, and the
provider's subsequent disconnect event drives it back to disconnected with a
null account. -/
theorem adapter_ops_preserve_invariant (w : Window) (s : AdapterState)
    (hs : stateInv s = true) :
    stateInv (PhantomWalletAdapter.connect w s).2 = true ∧
    stateInv (PhantomWalletAdapter.disconnect w s).2 = true ∧
    stateInv (PhantomWalletAdapter._checkConnection w s) = true ∧
    stateInv (PhantomWalletAdapter._handleDisconnect s) = true ∧
    stateInv (PhantomWalletAdapter._handleDisconnectEvent s) = true ∧
    stateInv (PhantomWalletAdapter._handleAccountChanged none s) = true ∧
    (∀ k : String, s.connected = true →
      stateInv (PhantomWalletAdapter._handleAccountChanged (some k) s) = true) ∧
    (∀ p : Provider, PhantomWalletAdapter._getProvider w = some p →
      p.connectResult = .ok "Addr123" →
      (PhantomWalletAdapter.connect w AdapterState.init).2 = ⟨some "Addr123", true⟩ ∧
      PhantomWalletAdapter._handleDisconnect
        (PhantomWalletAdapter.connect w AdapterState.init).2 = ⟨none, false⟩) := by
  refine ⟨?_, ?_, ?_, rfl, rfl, rfl, ?_, ?_⟩
  · cases hp : PhantomWalletAdapter._getProvider w with
    | none => simpa [PhantomWalletAdapter.connect, hp] using hs
    | some p =>
      cases hc : p.connectResult with
      | ok pk => simp [PhantomWalletAdapter.connect, hp, hc, stateInv]
      | error e =>
        simp [PhantomWalletAdapter.connect, hp, hc, stateInv]
        simpa [stateInv] using hs
  · cases hp : PhantomWalletAdapter._getProvider w with
    | none => simpa [PhantomWalletAdapter.disconnect, hp] using hs
    | some p =>
      cases hc : p.disconnectResult with
      | ok u =>
        simp [PhantomWalletAdapter.disconnect, PhantomWalletAdapter._handleDisconnect,
          hp, hc, stateInv]
      | error e =>
        simp [PhantomWalletAdapter.disconnect, hp, hc, stateInv]
        simpa [stateInv] using hs
  · cases hp : PhantomWalletAdapter._getProvider w with
    | none => simpa [PhantomWalletAdapter._checkConnection, hp] using hs
    | some p =>
      cases hc : p.isConnected with
      | true => simp [PhantomWalletAdapter._checkConnection, hp, hc, stateInv]
      | false =>
        simp [PhantomWalletAdapter._checkConnection, hp, hc, stateInv]
        simpa [stateInv] using hs
  · intro k hk
    simp [PhantomWalletAdapter._handleAccountChanged, stateInv, hk]
  · intro p hp hc
    simp [PhantomWalletAdapter.connect, PhantomWalletAdapter._handleDisconnect, hp, hc]

/-- An unsubscription step is the filter keeping the registrations it does
not match. -/
theorem removeIf_eq_filter (o : Option Nat) (ev : EventName) (s : ListenerState) :
    removeIf o ev s = List.filter (fun r => !tornBy o ev r) s := by
  cases o with
  | none => simp [removeIf, tornBy]
  | some c => rfl

/-- Membership after a subscription step: the old registrations plus the
pair the step adds when its callback is present. -/
theorem registerIf_mem (o : Option Nat) (ev : EventName) (s : ListenerState)
    (r : EventName × Nat) :
    r ∈ registerIf o ev s ↔ r ∈ s ∨ tornBy o ev r = true := by
  cases o with
  | none => simp [registerIf, tornBy]
  | some c =>
    simp [registerIf, providerOn, tornBy, Prod.ext_iff]

/-- With a provider present, the teardown closure returned by
`setupPhantomEventListeners` acts on a listener table as the filter keeping
exactly the registrations matched by none of its removal steps. -/
theorem teardown_apply (w : Option Window) (cbs : Callbacks) (ls : ListenerState)
    (p : Provider) (hp : getPhantomProvider w = some p) (s : ListenerState) :
    (setupPhantomEventListeners w cbs ls).2 s =
      List.filter (keepAfterTeardown cbs) s := by
  simp only [setupPhantomEventListeners, hp, removeIf_eq_filter, List.filter_filter]
  rfl

/-- With a provider present, the listener table produced by
`setupPhantomEventListeners` holds the prior registrations plus the pairs its
subscription steps add. -/
theorem setup_fst (w : Option Window) (cbs : Callbacks) (ls : ListenerState)
    (p : Provider) (hp : getPhantomProvider w = some p) :
    (setupPhantomEventListeners w cbs ls).1 =
      registerIf cbs.onAccountChange .accountChanged
        (registerIf cbs.onDisconnect .disconnect
          (registerIf cbs.onConnect .connect ls)) := by
  simp [setupPhantomEventListeners, hp]

/-- Every registration that survives the teardown filter applied to the
post-subscription table was already present before the subscription. -/
theorem teardown_removes_setup (w : Option Window) (cbs : Callbacks)
    (ls : ListenerState) (p : Provider) (hp : getPhantomProvider w = some p)
    (r : EventName × Nat)
    (hr : r ∈ List.filter (keepAfterTeardown cbs)
      (setupPhantomEventListeners w cbs ls).1) :
    r ∈ ls := by
  rw [setup_fst w cbs ls p hp] at hr
  obtain ⟨h1, h2⟩ := List.mem_filter.mp hr
  simp only [keepAfterTeardown, Bool.and_eq_true, Bool.not_eq_true'] at h2
  obtain ⟨hA, hD, hC⟩ := h2
  simp only [registerIf_mem] at h1
  rcases h1 with ((h1 | h1) | h1) | h1
  · exact h1
  · simp [hC] at h1
  · simp [hD] at h1
  · simp [hA] at h1

/-- Every callback identity a fired event sequence invokes belongs to some
registration in the listener table. -/
theorem mem_fireAll (ls : ListenerState) (evs : List EventName) (x : Nat)
    (hx : x ∈ fireAll ls evs) : ∃ r ∈ ls, r.2 = x := by
  induction evs with
  | nil => cases hx
  | cons ev evs ih =>
    rw [fireAll, List.mem_append] at hx
    rcases hx with hx | hx
    · rw [fireEvent, List.mem_map] at hx
      obtain ⟨r, hr, hrx⟩ := hx
      exact ⟨r, (List.mem_filter.mp hr).1, hrx⟩
    · exact ih hx

/-- C6: once the teardown returned by `setupPhantomEventListeners` has run,
no event sequence the provider subsequently fires invokes any of the
subscribed callbacks (given the callbacks were not also registered in the
provider's table before the subscription). -/
theorem teardown_silences_callbacks (w : Option Window) (cbs : Callbacks)
    (ls : ListenerState) (h : ∀ r ∈ ls, Callbacks.owns cbs r.2 = false) :
    ∀ (evs : List EventName) (c : Nat), Callbacks.owns cbs c = true →
      c ∉ fireAll ((setupPhantomEventListeners w cbs ls).2
        (setupPhantomEventListeners w cbs ls).1) evs := by
  intro evs c hc hmem
  obtain ⟨r, hr, hrc⟩ := mem_fireAll _ _ _ hmem
  have hrls : r ∈ ls := by
    cases hp : getPhantomProvider w with
    | none =>
      simpa [setupPhantomEventListeners, hp] using hr
    | some p =>
      rw [teardown_apply w cbs ls p hp] at hr
      exact teardown_removes_setup w cbs ls p hp r hr
  have hf := h r hrls
  rw [hrc, hc] at hf
  cases hf

/-- Witness for C6: after teardown, callback 7 subscribed on connect is not
invoked across a concrete event sequence fired on the torn-down table. -/
theorem teardown_silences_callbacks_witness :
    (7 : Nat) ∉ fireAll
      ((setupPhantomEventListeners (some phantomWindow) ⟨some 7, some 8, some 9⟩ []).2
        (setupPhantomEventListeners (some phantomWindow) ⟨some 7, some 8, some 9⟩ []).1)
      [.connect, .disconnect, .accountChanged, .connect] :=
  teardown_silences_callbacks (some phantomWindow) ⟨some 7, some 8, some 9⟩ []
    (fun r hr => absurd hr (List.not_mem_nil r))
    [.connect, .disconnect, .accountChanged, .connect] 7 rfl

/-- C7: for every callbacks object, the teardown returned by
`setupPhantomEventListeners` is idempotent on the provider's listener table;
and with no provider present the subscription leaves the table unchanged and
the returned teardown is the no-op function. -/
theorem teardown_idempotent_and_noop (w : Option Window) (cbs : Callbacks)
    (ls : ListenerState) :
    (∀ s : ListenerState,
      (setupPhantomEventListeners w cbs ls).2 ((setupPhantomEventListeners w cbs ls).2 s) =
        (setupPhantomEventListeners w cbs ls).2 s) ∧
    (getPhantomProvider w = none →
      (setupPhantomEventListeners w cbs ls).1 = ls ∧
      (setupPhantomEventListeners w cbs ls).2 = fun s => s) := by
  constructor
  · intro s
    cases hp : getPhantomProvider w with
    | none => simp [setupPhantomEventListeners, hp]
    | some p =>
      simp only [teardown_apply w cbs ls p hp, List.filter_filter]
      exact List.filter_congr fun x _ => Bool.and_self _
  · intro hp
    exact ⟨by simp [setupPhantomEventListeners, hp],
      by simp [setupPhantomEventListeners, hp]⟩

/-- Witness for C7: a double teardown on a concrete table equals a single
one, and with nothing injected the subscription is a no-op returning the
identity teardown. -/
theorem teardown_idempotent_and_noop_witness :
    (setupPhantomEventListeners (some emptyWindow) ⟨some 1, none, none⟩ []).1 = [] ∧
    (setupPhantomEventListeners (some emptyWindow) ⟨some 1, none, none⟩ []).2
      [(.connect, 1)] = [(.connect, 1)] ∧
    (setupPhantomEventListeners (some phantomWindow) ⟨some 1, none, none⟩ []).2
      ((setupPhantomEventListeners (some phantomWindow) ⟨some 1, none, none⟩ []).2
        [(.connect, 1)]) =
      (setupPhantomEventListeners (some phantomWindow) ⟨some 1, none, none⟩ []).2
        [(.connect, 1)] :=
  ⟨((teardown_idempotent_and_noop (some emptyWindow) ⟨some 1, none, none⟩ []).2 rfl).1,
   by rw [((teardown_idempotent_and_noop (some emptyWindow) ⟨some 1, none, none⟩ []).2
      rfl).2],
   (teardown_idempotent_and_noop (some phantomWindow) ⟨some 1, none, none⟩ []).1
     [(.connect, 1)]⟩

/-- Witness for C2's amended statement: the Addr123 scenario run on the
concrete provider that approves with Addr123. -/
theorem adapter_ops_preserve_invariant_witness :
    stateInv (PhantomWalletAdapter.connect phantomWindow AdapterState.init).2 = true ∧
    (PhantomWalletAdapter.connect phantomWindow AdapterState.init).2 =
      ⟨some "Addr123", true⟩ ∧
    PhantomWalletAdapter._handleDisconnect
      (PhantomWalletAdapter.connect phantomWindow AdapterState.init).2 =
      ⟨none, false⟩ :=
  ⟨(adapter_ops_preserve_invariant phantomWindow AdapterState.init rfl).1,
   ((adapter_ops_preserve_invariant phantomWindow AdapterState.init
      rfl).2.2.2.2.2.2.2 okProvider rfl rfl).1,
   ((adapter_ops_preserve_invariant phantomWindow AdapterState.init
      rfl).2.2.2.2.2.2.2 okProvider rfl rfl).2⟩

/-- C5 counterexample: with an injected object present at
`window.phantom.solana` whose `isPhantom` presence flag is not set, the
Provider Locator returns that object rather than null (only
`isPhantomInstalled` consults the flag). -/
theorem getPhantomProvider_ignores_isPhantom :
    notPhantomProvider.isPhantom = false ∧
    getPhantomProvider (some spoofWindow) = some notPhantomProvider ∧
    isPhantomInstalled (some spoofWindow) = false :=
  ⟨rfl, rfl, rfl⟩

/-- C5 amended: the Provider Locator returns the injected wallet object
exactly when it is present, not gated on the `isPhantom` flag:
`getPhantomProvider` returns `window.phantom.solana` whenever that chain is
set (and null when `window` is undefined, so it is safe before the document
loads); `_getProvider` does the same when the `phantom` key is present, and
only when that key is absent falls back to `window.solana` gated on its
`isPhantom` flag.  Neither locator performs any side effect beyond
logging. -/
theorem provider_locator_characterization :
    getPhantomProvider none = none ∧
    (∀ w : Window, getPhantomProvider (some w) = w.phantomVal.bind PhantomNS.solana) ∧
    (∀ w : Window, w.phantomProp.isSome = true →
      PhantomWalletAdapter._getProvider w = w.phantomVal.bind PhantomNS.solana) ∧
    (∀ w : Window, w.phantomProp = none → w.solana = none →
      PhantomWalletAdapter._getProvider w = none) ∧
    (∀ (w : Window) (p : Provider), w.phantomProp = none → w.solana = some p →
      PhantomWalletAdapter._getProvider w = if p.isPhantom then some p else none) ∧
    (∀ p : Provider, getPhantomProvider (some ⟨some (some ⟨some p⟩), none⟩) = some p) := by
  refine ⟨rfl, fun w => rfl, fun w h => ?_, fun w h1 h2 => ?_, fun w p h1 h2 => ?_,
    fun p => rfl⟩
  · simp [PhantomWalletAdapter._getProvider, h]
  · simp [PhantomWalletAdapter._getProvider, h1, h2]
  · simp [PhantomWalletAdapter._getProvider, h1, h2]

/-- Witness for C5's amended statement on concrete browsing contexts: the
adapter locator also returns the flagless injected object, and finds nothing
in the empty context. -/
theorem provider_locator_characterization_witness :
    PhantomWalletAdapter._getProvider spoofWindow = some notPhantomProvider ∧
    PhantomWalletAdapter._getProvider emptyWindow = none :=
  ⟨by rw [provider_locator_characterization.2.2.1 spoofWindow rfl]; rfl,
   provider_locator_characterization.2.2.2.1 emptyWindow rfl rfl⟩

/-- C8: when the provider's connect resolves with a public key, the connect
operations return exactly that identifier, and the synchronous reads
performed afterwards — `getConnectedPublicKey` on the provider that now
reports the session, and the adapter's stored `publicKey` — return the same
identifier. -/
theorem connect_then_read_publicKey (w : Window) (w2 : Option Window)
    (p : Provider) (pk : String) (s : AdapterState)
    (hp : getPhantomProvider (some w) = some p)
    (hap : PhantomWalletAdapter._getProvider w = some p)
    (hc : p.connectResult = .ok pk)
    (hpk : pk ≠ "")
    (hw2 : getPhantomProvider w2 = some p.afterConnect) :
    (connectPhantomWallet w).1 = .ok pk ∧
    getConnectedPublicKey w2 = some pk ∧
    (PhantomWalletAdapter.connect w s).1 = .ok pk ∧
    (PhantomWalletAdapter.connect w s).2.publicKey = some pk := by
  refine ⟨?_, ?_, ?_, ?_⟩ <;>
    simp [connectPhantomWallet, getConnectedPublicKey, PhantomWalletAdapter.connect,
      Provider.afterConnect, hp, hap, hc, hpk, hw2]

/-- Witness for C8: the Addr123 approval on the concrete provider, read back
from the provider after connect and from the adapter state. -/
theorem connect_then_read_publicKey_witness :
    (connectPhantomWallet phantomWindow).1 = .ok "Addr123" ∧
    getConnectedPublicKey (some connectedWindow) = some "Addr123" ∧
    (PhantomWalletAdapter.connect phantomWindow AdapterState.init).2.publicKey =
      some "Addr123" :=
  ⟨(connect_then_read_publicKey phantomWindow (some connectedWindow) okProvider
      "Addr123" AdapterState.init rfl rfl rfl (by decide) rfl).1,
   (connect_then_read_publicKey phantomWindow (some connectedWindow) okProvider
      "Addr123" AdapterState.init rfl rfl rfl (by decide) rfl).2.1,
   (connect_then_read_publicKey phantomWindow (some connectedWindow) okProvider
      "Addr123" AdapterState.init rfl rfl rfl (by decide) rfl).2.2.2⟩

/-- C9 counterexample: with a provider present but no session connected, a
rejection from the provider's own `disconnect()` call is propagated — both
`disconnectPhantomWallet` and the adapter's `disconnect` throw rather than
being a safe no-op. -/
theorem disconnect_propagates_provider_error :
    isPhantomConnected (some rejectingDisconnectWindow) = false ∧
    disconnectPhantomWallet (some rejectingDisconnectWindow) =
      .error (.provider 4900 "Provider disconnect failed") ∧
    (PhantomWalletAdapter.disconnect rejectingDisconnectWindow AdapterState.init).1 =
      .error (.provider 4900 "Provider disconnect failed") :=
  ⟨rfl, rfl, rfl⟩

/-- C9 amended: calling disconnect when no session is connected raises no
error of the repository's own: with no provider it returns leaving the
adapter state untouched, and with a provider present it is a safe no-op
whenever the provider's own `disconnect()` resolves (its rejection, if any,
is the one propagated), the already-disconnected adapter state coming back
unchanged. -/
theorem disconnect_when_not_connected (w : Window) (w2 : Option Window)
    (s : AdapterState) :
    (getPhantomProvider w2 = none → disconnectPhantomWallet w2 = .ok ()) ∧
    (PhantomWalletAdapter._getProvider w = none →
      PhantomWalletAdapter.disconnect w s = (.ok (), s)) ∧
    (∀ p : Provider, getPhantomProvider w2 = some p → p.disconnectResult = .ok () →
      disconnectPhantomWallet w2 = .ok ()) ∧
    (∀ p : Provider, PhantomWalletAdapter._getProvider w = some p →
      p.disconnectResult = .ok () → s.publicKey = none → s.connected = false →
      PhantomWalletAdapter.disconnect w s = (.ok (), s)) := by
  refine ⟨?_, ?_, ?_, ?_⟩
  · intro h
    simp [disconnectPhantomWallet, h]
  · intro h
    simp [PhantomWalletAdapter.disconnect, h]
  · intro p hp hd
    simp [disconnectPhantomWallet, hp, hd]
  · intro p hp hd h1 h2
    obtain ⟨pk0, c0⟩ := s
    cases h1
    cases h2
    simp [PhantomWalletAdapter.disconnect, PhantomWalletAdapter._handleDisconnect, hp, hd]

/-- Witness for C9's amended statement: disconnect on the empty context and
on the unconnected well-behaved provider, module-level and adapter-level. -/
theorem disconnect_when_not_connected_witness :
    disconnectPhantomWallet (some emptyWindow) = .ok () ∧
    PhantomWalletAdapter.disconnect emptyWindow AdapterState.init =
      (.ok (), AdapterState.init) ∧
    disconnectPhantomWallet (some phantomWindow) = .ok () ∧
    PhantomWalletAdapter.disconnect phantomWindow AdapterState.init =
      (.ok (), AdapterState.init) :=
  ⟨(disconnect_when_not_connected emptyWindow (some emptyWindow) AdapterState.init).1 rfl,
   (disconnect_when_not_connected emptyWindow (some emptyWindow)
      AdapterState.init).2.1 rfl,
   (disconnect_when_not_connected phantomWindow (some phantomWindow)
      AdapterState.init).2.2.1 okProvider rfl rfl,
   (disconnect_when_not_connected phantomWindow (some phantomWindow)
      AdapterState.init).2.2.2 okProvider rfl rfl rfl rfl⟩

end Phantom
